import Mathlib

/-!
Verification development for the kvdi audio-buffer orchestrator
(src/pkg/util/audio/buffer.go) and the k8sutil creation-spec helpers
(src/unnamed/part_001).

The Go code is shallowly embedded: pure functions become Lean functions,
stateful methods become explicit state passing, Go maps become partial
functions, and interactions with the OS or with external subsystems
(file reads during readiness polling, the pa device daemon, the spawned
gst processes) are supplied as explicit environment values.
-/

namespace Kvdi

/-! ## k8sutil creation-spec helpers (src/unnamed/part_001)

Go annotation maps are nil-able `map[string]string`; we model them as
`Option (String → Option String)`, where `none` is the nil map. -/

/-- The annotation key `v1.CreationSpecAnnotation`. The constant lives in
an external api package; its exact value never matters to the claims. -/
def CreationSpecAnnotKey : String := "kvdi.io/creation-spec"

/-- The struct `metav1.ObjectMeta`, restricted to the field the helpers touch. -/
structure ObjectMeta where
  annotations : Option (String → Option String)

/-- Reading a key from the (possibly nil) annotation map, as Go map
indexing does: a nil map yields the zero value with ok = false. -/
def annLookup (m : ObjectMeta) (k : String) : Option String :=
  match m.annotations with
  | none => none
  | some f => f k

/-- Go `SetCreationSpecAnnotation` from src/unnamed/part_001: takes the
current annotations (allocating an empty map when nil), marshals the
object to JSON, hashes the bytes, and stores the hex digest under the
creation-spec key. `jsonMarshal` and `sha256Hex` are the deterministic
external functions `json.Marshal` and sha256-then-hex; marshal failure
is the only error path (`sha256.Write` never fails in Go). -/
def SetCreationSpecAnnot {Obj : Type} (jsonMarshal : Obj → Option String)
    (sha256Hex : String → String) (meta : ObjectMeta) (obj : Obj) :
    Option ObjectMeta :=
  let annotations : String → Option String :=
    match meta.annotations with
    | none => fun _ => none
    | some f => f
  match jsonMarshal obj with
  | none => none
  | some spec =>
    let updated : String → Option String := fun k =>
      if k = CreationSpecAnnotKey then some (sha256Hex spec) else annotations k
    some { meta with annotations := some updated }

/-- Go `CreationSpecsEqual` from src/unnamed/part_001: true exactly when both
metas carry the creation-spec annotation and the two values are equal. -/
def CreationSpecsEqual (m1 m2 : ObjectMeta) : Bool :=
  match annLookup m1 CreationSpecAnnotKey with
  | none => false
  | some spec1 =>
    match annLookup m2 CreationSpecAnnotKey with
    | none => false
    | some spec2 => spec1 == spec2

/-! ## Audio: playback pipeline construction (buffer.go, buildPlaybackPipeline) -/

/-- One gst stage descriptor, as appended by the builder calls made in
`buildPlaybackPipeline`. -/
inductive Stage
  | pulseSrc (userID monitor : String) (channels sampleRate : Int)
  | vorbisEncode
  | oggMux
  | cutter
  | opusEncode
  | webmMux
  | lameEncode
  | fdSink (fd : Int)
deriving Repr, DecidableEq

/-- Go `buildPlaybackPipeline`: pulse source from "kvdi.monitor", then the
codec branch of the switch statement (cases tested in source order:
vorbis, opus, mp3, default), then a sink to fd 1. The second component
counts warning-level log lines emitted (only the default branch logs). -/
def buildPlaybackPipeline (userID : String) (channels sampleRate : Int)
    (codec : String) : List Stage × Nat :=
  let base : List Stage := [Stage.pulseSrc userID "kvdi.monitor" channels sampleRate]
  let branch : List Stage × Nat :=
    if codec = "vorbis" then ([Stage.vorbisEncode, Stage.oggMux], 0)
    else if codec = "opus" then ([Stage.cutter, Stage.opusEncode, Stage.webmMux], 0)
    else if codec = "mp3" then ([Stage.lameEncode], 0)
    else ([Stage.cutter, Stage.opusEncode, Stage.webmMux], 1)
  (base ++ branch.1 ++ [Stage.fdSink 1], branch.2)

/-- The playback stage mapping as the spec states it (section 4.3 step 2):
vorbis gets vorbis-encode plus ogg-mux, mp3 gets lame-encode with no
container, and opus as well as every unrecognized codec gets the
silence-trimming cutter plus opus-encode plus webm-mux, with exactly one
warning for unrecognized codecs; every sequence starts at the sink
monitor pulse source and ends in a sink to fd 1. -/
def specPlaybackPipeline (userID : String) (channels sampleRate : Int)
    (codec : String) : List Stage × Nat :=
  let encodeStages : List Stage :=
    if codec = "vorbis" then [Stage.vorbisEncode, Stage.oggMux]
    else if codec = "mp3" then [Stage.lameEncode]
    else [Stage.cutter, Stage.opusEncode, Stage.webmMux]
  let warnings : Nat :=
    if codec = "vorbis" ∨ codec = "opus" ∨ codec = "mp3" then 0 else 1
  ([Stage.pulseSrc userID "kvdi.monitor" channels sampleRate] ++ encodeStages
    ++ [Stage.fdSink 1], warnings)

/-! ## Audio: readiness polling (buffer.go, waitForProcPort) -/

/-- Whether `needle` is a leading segment of `hay`. -/
def leadingMatch : List Char → List Char → Bool
  | [], _ => true
  | _ :: _, [] => false
  | c :: cs, d :: ds => c = d && leadingMatch cs ds

/-- Whether `needle` occurs contiguously inside `hay`. -/
def containsSeq (needle : List Char) : List Char → Bool
  | [] => leadingMatch needle []
  | d :: ds => leadingMatch needle (d :: ds) || containsSeq needle ds

/-- Go `strings.Contains(s, sub)`: sub occurs contiguously in s (true for an
empty sub, as in Go). -/
def stringContains (s sub : String) : Bool := containsSeq sub.toList s.toList

/-- Go `strings.ToUpper(strconv.FormatInt(port, 16))`: hex digits of the
magnitude, upper-cased, with a leading minus sign for negative input. -/
def portHexOf (port : Int) : String :=
  if port < 0 then "-" ++ String.mk ((Nat.toDigits 16 (-port).toNat).map Char.toUpper)
  else String.mk ((Nat.toDigits 16 port.toNat).map Char.toUpper)

/-- What one iteration of the polling loop observes from the OS: the
open / read-all / close steps may fail, otherwise the iteration sees the
file body. -/
inductive TickResult
  | openErr (e : String)
  | readErr (e : String)
  | closeErr (e : String)
  | body (contents : String)
deriving Repr, DecidableEq

/-- Outcome of running the polling loop against a finite schedule of tick
observations: either the function returned, or it is still looping after
consuming the whole schedule. -/
inductive WaitOutcome
  | returned (err : Option String)
  | stillPolling
deriving Repr, DecidableEq

/-- The `for range ticker.C` loop body of `waitForProcPort`, iterated over
a schedule of tick observations. Any file error returns it; a body
containing the hex port breaks out with success; otherwise the loop
returns the retry-limit error when `tries == retries` and keeps looping
otherwise. The source never mutates `tries` inside the loop, so the
recursive call passes `tries` through unchanged. -/
def waitLoop (proto : String) (pid port retries tries : Int) (hex : String) :
    List TickResult → WaitOutcome
  | [] => WaitOutcome.stillPolling
  | TickResult.openErr e :: _ => WaitOutcome.returned (some e)
  | TickResult.readErr e :: _ => WaitOutcome.returned (some e)
  | TickResult.closeErr e :: _ => WaitOutcome.returned (some e)
  | TickResult.body s :: rest =>
    if stringContains s hex then WaitOutcome.returned none
    else if tries = retries then
      WaitOutcome.returned (some ("Hit retry limit waiting for port " ++ proto ++ "/"
        ++ toString port ++ " on PID " ++ toString pid))
    else waitLoop proto pid port retries tries hex rest

/-- Go `waitForProcPort(proto, pid, port, retries, interval)`: computes the
upper-case hex form of the port, initializes `tries := 0`, and runs the
ticker loop. `interval` only sets the tick spacing, which the schedule
abstracts. -/
def waitForProcPort (proto : String) (pid port retries interval : Int)
    (ticks : List TickResult) : WaitOutcome :=
  let _ := interval
  waitLoop proto pid port retries 0 (portHexOf port) ticks

/-! ## Audio: Buffer lifecycle (buffer.go)

The gst and pa packages are not part of the excerpted source, so the
runtime objects they provide are modelled from the spec (sections 4.1
and 4.2) and the buffer.go methods are embedded over them. -/

/-- Modelled from the spec: a `gst.Pipeline` runtime object (the gst
package is missing from src). Section 3 gives it a closed flag; the
`closeErr` and `waitErr` fields are the outcomes its external process
delivers when Close and Wait are invoked. -/
structure Pipeline where
  closed : Bool
  closeErr : Option String
  waitErr : Option String
deriving Repr, DecidableEq

/-- Modelled from the spec: `Pipeline.Close` terminates the process; on
success `IsClosed` is true from then on, on failure the error is
returned and the flag is untouched. -/
def pipelineClose (p : Pipeline) : Pipeline × Option String :=
  match p.closeErr with
  | some e => (p, some e)
  | none => ({ p with closed := true }, none)

/-- Modelled from the spec: `Pipeline.IsClosed` reads the closed flag. -/
def pipelineIsClosed (p : Pipeline) : Bool := p.closed

/-- Modelled from the spec: `Pipeline.Wait` blocks until process exit and
returns the exit error, if any. -/
def pipelineWait (p : Pipeline) : Option String := p.waitErr

/-- A Go runtime fault, as opposed to a returned error value. -/
inductive Fault
  | nilDereference
deriving Repr, DecidableEq

/-- Calling `IsClosed` through a possibly nil `*gst.Pipeline` field: the
method reads the closed flag of its receiver, so a nil pointer faults. -/
def optIsClosed : Option Pipeline → Except Fault Bool
  | none => Except.error Fault.nilDereference
  | some p => Except.ok (pipelineIsClosed p)

/-- Calling `Close` through a possibly nil `*gst.Pipeline` field. -/
def optClose : Option Pipeline → Except Fault (Pipeline × Option String)
  | none => Except.error Fault.nilDereference
  | some p => Except.ok (pipelineClose p)

/-- Calling `Wait` through a possibly nil `*gst.Pipeline` field. -/
def optWait : Option Pipeline → Except Fault (Option String)
  | none => Except.error Fault.nilDereference
  | some p => Except.ok (pipelineWait p)

/-- The `Buffer` struct fields the lifecycle methods touch. The three
pipeline fields are nil (`none`) until `Start` assigns them.
`devicesDestroyed` counts `DeviceManager.Destroy` invocations, which the
spec describes as best-effort and never failing. -/
structure Buffer where
  userID : String
  pbkPipeline : Option Pipeline
  bufPipeline : Option Pipeline
  recPipeline : Option Pipeline
  channels : Int
  sampleRate : Int
  closed : Bool
  devicesDestroyed : Nat
deriving Repr, DecidableEq

/-- Go `NewBuffer`: fresh device manager, nil pipelines, 2 channels,
24000 Hz sample rate, not closed. -/
def NewBuffer (userID : String) : Buffer :=
  { userID := userID
    pbkPipeline := none
    bufPipeline := none
    recPipeline := none
    channels := 2
    sampleRate := 24000
    closed := false
    devicesDestroyed := 0 }

/-- Go `Buffer.IsClosed`: the short-circuit conjunction
`pbk.IsClosed() && rec.IsClosed() && buf.IsClosed() && a.closed`,
faulting where Go would dereference a nil pipeline pointer. -/
def Buffer.IsClosed (a : Buffer) : Except Fault Bool :=
  match optIsClosed a.pbkPipeline with
  | Except.error f => Except.error f
  | Except.ok false => Except.ok false
  | Except.ok true =>
    match optIsClosed a.recPipeline with
    | Except.error f => Except.error f
    | Except.ok false => Except.ok false
    | Except.ok true =>
      match optIsClosed a.bufPipeline with
      | Except.error f => Except.error f
      | Except.ok b3 => Except.ok (b3 && a.closed)

/-- The externally visible steps `Buffer.Close` takes, in order. -/
inductive CloseAction
  | closePbk
  | closeBuf
  | closeRec
  | destroyDevices
deriving Repr, DecidableEq

/-- Go `Buffer.Close`: guarded by `IsClosed`; closes the playback, then the
network-buffer, then the recorder pipeline, returning the first close
error immediately; only when all three succeed does it destroy the
devices and set the closed flag. The returned list records the actions
performed. -/
def Buffer.Close (a : Buffer) : Except Fault (Buffer × Option String × List CloseAction) :=
  match a.IsClosed with
  | Except.error f => Except.error f
  | Except.ok true => Except.ok (a, none, [])
  | Except.ok false =>
    match optClose a.pbkPipeline with
    | Except.error f => Except.error f
    | Except.ok (p1, some e) =>
      Except.ok ({ a with pbkPipeline := some p1 }, some e, [CloseAction.closePbk])
    | Except.ok (p1, none) =>
      let a1 := { a with pbkPipeline := some p1 }
      match optClose a1.bufPipeline with
      | Except.error f => Except.error f
      | Except.ok (p2, some e) =>
        Except.ok ({ a1 with bufPipeline := some p2 }, some e,
          [CloseAction.closePbk, CloseAction.closeBuf])
      | Except.ok (p2, none) =>
        let a2 := { a1 with bufPipeline := some p2 }
        match optClose a2.recPipeline with
        | Except.error f => Except.error f
        | Except.ok (p3, some e) =>
          Except.ok ({ a2 with recPipeline := some p3 }, some e,
            [CloseAction.closePbk, CloseAction.closeBuf, CloseAction.closeRec])
        | Except.ok (p3, none) =>
          let a3 := { a2 with
            recPipeline := some p3
            closed := true
            devicesDestroyed := a2.devicesDestroyed + 1 }
          Except.ok (a3, none,
            [CloseAction.closePbk, CloseAction.closeBuf, CloseAction.closeRec,
              CloseAction.destroyDevices])

/-- Go `Buffer.Wait`: waits on playback, network-buffer, recorder in that
order, appending each non-nil exit error message; a non-empty collection
is joined with the " : " separator into one error. -/
def Buffer.Wait (a : Buffer) : Except Fault (Option String) :=
  match optWait a.pbkPipeline with
  | Except.error f => Except.error f
  | Except.ok w1 =>
    match optWait a.bufPipeline with
    | Except.error f => Except.error f
    | Except.ok w2 =>
      match optWait a.recPipeline with
      | Except.error f => Except.error f
      | Except.ok w3 =>
        let errs0 : List String := []
        let errs1 := match w1 with | some e => errs0 ++ [e] | none => errs0
        let errs2 := match w2 with | some e => errs1 ++ [e] | none => errs1
        let errs3 := match w3 with | some e => errs2 ++ [e] | none => errs2
        if errs3.length > 0 then Except.ok (some (String.intercalate " : " errs3))
        else Except.ok none

/-! ## Audio: device provisioning and Start (buffer.go) -/

/-- Modelled from the spec: the pa `DeviceManager` subsystem (the pa
package is missing from src). Each provisioning call either succeeds or
returns the error the device daemon produced for that request. -/
structure DeviceEnv where
  addSink : String → String → Option String
  addSource : String → String → String → String → Int → Int → Option String
  setDefaultSource : String → Option String

/-- Go `setupDevices`: adds the "kvdi"/"kvdi-playback" sink, then the
FIFO-backed "virtmic" source with format s16le, 1 channel, 16000 Hz,
then makes "virtmic" the default source, returning the first error. -/
def setupDevices (env : DeviceEnv) (userID : String) : Option String :=
  match env.addSink "kvdi" "kvdi-playback" with
  | some e => some e
  | none =>
    match env.addSource "virtmic" "kvdi-microphone"
        ("/run/user/" ++ userID ++ "/pulse/mic.fifo") "s16le" 1 16000 with
    | some e => some e
    | none => env.setDefaultSource "virtmic"

/-- Modelled from the spec: what the gst subsystem delivers during
`Start` — the three built pipeline objects and the outcomes of the two
blocking `Pipeline.Start` calls. -/
structure PipelineEnv where
  builtPbk : Pipeline
  builtBuf : Pipeline
  builtRec : Pipeline
  pbkStartErr : Option String
  bufStartErr : Option String

/-- The externally visible steps `Buffer.Start` takes, in order. -/
inductive StartStep
  | devicesProvisioned
  | pipelinesBuilt
  | pbkStarted
  | bufStarted
  | waiterSpawned
deriving Repr, DecidableEq

/-- Go `Buffer.Start`: provisions devices (aborting on the first
provisioning error before any pipeline is built), assigns the three
built pipelines, starts the playback then the network-buffer pipeline
(aborting on either start error), and finally spawns the background
readiness-polling task. The returned list records the steps reached. -/
def Buffer.Start (env : DeviceEnv) (penv : PipelineEnv) (a : Buffer) :
    Buffer × Option String × List StartStep :=
  match setupDevices env a.userID with
  | some e => (a, some e, [])
  | none =>
    let a1 := { a with pbkPipeline := some penv.builtPbk,
                       bufPipeline := some penv.builtBuf,
                       recPipeline := some penv.builtRec }
    match penv.pbkStartErr with
    | some e => (a1, some e, [StartStep.devicesProvisioned, StartStep.pipelinesBuilt])
    | none =>
      match penv.bufStartErr with
      | some e => (a1, some e,
          [StartStep.devicesProvisioned, StartStep.pipelinesBuilt, StartStep.pbkStarted])
      | none => (a1, none,
          [StartStep.devicesProvisioned, StartStep.pipelinesBuilt, StartStep.pbkStarted,
            StartStep.bufStarted, StartStep.waiterSpawned])

/-- The pipeline object as a successful `Pipeline.Close` leaves it. -/
def closedOf (p : Pipeline) : Pipeline := { p with closed := true }

/-- True when a lifecycle call completed without a Go runtime fault. -/
def noFault {α : Type} : Except Fault α → Bool
  | Except.ok _ => true
  | Except.error _ => false

/-! ## Theorems -/

/-- C2: for every codec value, the compiled playback stage sequence is
the pulse source from the sink monitor, then per codec the documented
encode/container stages (vorbis: vorbis plus ogg; opus: cutter, opus,
webm; mp3: lame with no mux; anything else, including "raw": the same
cutter/opus/webm sequence with exactly one warning and no error), always
ending in a sink to fd 1 — i.e. the code equals the spec mapping. -/
theorem buildPlaybackPipeline_matches_spec (userID : String)
    (channels sampleRate : Int) (codec : String) :
    buildPlaybackPipeline userID channels sampleRate codec =
      specPlaybackPipeline userID channels sampleRate codec := by
  unfold buildPlaybackPipeline specPlaybackPipeline
  by_cases h1 : codec = "vorbis" <;> by_cases h2 : codec = "opus" <;>
    by_cases h3 : codec = "mp3" <;> simp_all

/-- C1: with the default retries = 5 used by Start, when every poll reads
a body that does not contain the hex-encoded port and no file error
occurs, the loop never returns: after any number of unsuccessful checks
it is still polling, because the source never increments `tries`, so
`tries == retries` (0 == 5) never holds. This contradicts the claimed
retry-limit error after exactly 5 checks. -/
theorem waitForProcPort_never_hits_retry_limit (n : Nat) (s : String)
    (h : stringContains s (portHexOf 9004) = false) :
    waitForProcPort "tcp" 1234 9004 5 1 (List.replicate n (TickResult.body s)) =
      WaitOutcome.stillPolling := by
  show waitLoop "tcp" 1234 9004 5 0 (portHexOf 9004)
      (List.replicate n (TickResult.body s)) = WaitOutcome.stillPolling
  induction n with
  | zero => rfl
  | succ k ih =>
    rw [List.replicate_succ]
    rw [waitLoop]
    rw [h]
    simpa using ih

/-- Witness for C1 at a concrete schedule of six empty-body polls. -/
theorem waitForProcPort_never_hits_retry_limit_witness :
    stringContains "" (portHexOf 9004) = false ∧
      waitForProcPort "tcp" 1234 9004 5 1 (List.replicate 6 (TickResult.body "")) =
        WaitOutcome.stillPolling :=
  ⟨by decide, waitForProcPort_never_hits_retry_limit 6 "" (by decide)⟩

/-- C9: whenever the object marshals, SetCreationSpecAnnot succeeds (also
from a nil annotation map) and changes no annotation key other than the
creation-spec key. -/
theorem setCreationSpecAnnot_frame {Obj : Type} (jsonMarshal : Obj → Option String)
    (sha256Hex : String → String) (meta : ObjectMeta) (obj : Obj) (spec : String)
    (h : jsonMarshal obj = some spec) :
    (SetCreationSpecAnnot jsonMarshal sha256Hex meta obj).isSome = true ∧
      ∀ k, k ≠ CreationSpecAnnotKey →
        Option.map (fun m => annLookup m k)
            (SetCreationSpecAnnot jsonMarshal sha256Hex meta obj) =
          some (annLookup meta k) := by
  unfold SetCreationSpecAnnot
  rw [h]
  refine ⟨rfl, ?_⟩
  intro k hk
  cases hme : meta.annotations <;> simp [annLookup, hk, hme]

/-- Witness for C9: success from a nil annotation map, and preservation
of an unrelated key on a populated map. -/
theorem setCreationSpecAnnot_frame_witness :
    (SetCreationSpecAnnot (fun _ : Nat => some "jsonbytes") (fun s => s)
        { annotations := none } 0).isSome = true ∧
      Option.map (fun m => annLookup m "other")
          (SetCreationSpecAnnot (fun _ : Nat => some "jsonbytes") (fun s => s)
            { annotations := some (fun k => if k = "other" then some "v" else none) } 0) =
        some (annLookup
          { annotations := some (fun k => if k = "other" then some "v" else none) } "other") :=
  ⟨(setCreationSpecAnnot_frame (fun _ : Nat => some "jsonbytes") (fun s => s)
      { annotations := none } 0 "jsonbytes" rfl).1,
    (setCreationSpecAnnot_frame (fun _ : Nat => some "jsonbytes") (fun s => s)
      { annotations := some (fun k => if k = "other" then some "v" else none) } 0 "jsonbytes"
      rfl).2 "other" (by decide)⟩

/-- C10: stamping two metas with the same object (same deterministic
marshal and hash) makes CreationSpecsEqual true, and CreationSpecsEqual
is false whenever either meta lacks the creation-spec annotation. -/
theorem creationSpecsEqual_after_set {Obj : Type} (jsonMarshal : Obj → Option String)
    (sha256Hex : String → String) :
    (∀ (m1 m2 : ObjectMeta) (obj : Obj) (m1s m2s : ObjectMeta),
        SetCreationSpecAnnot jsonMarshal sha256Hex m1 obj = some m1s →
        SetCreationSpecAnnot jsonMarshal sha256Hex m2 obj = some m2s →
        CreationSpecsEqual m1s m2s = true) ∧
      (∀ m1 m2 : ObjectMeta, annLookup m1 CreationSpecAnnotKey = none →
        CreationSpecsEqual m1 m2 = false) ∧
      (∀ m1 m2 : ObjectMeta, annLookup m2 CreationSpecAnnotKey = none →
        CreationSpecsEqual m1 m2 = false) := by
  refine ⟨?_, ?_, ?_⟩
  · intro m1 m2 obj m1s m2s h1 h2
    unfold SetCreationSpecAnnot at h1 h2
    cases hm : jsonMarshal obj with
    | none => rw [hm] at h1; exact absurd h1 (by simp)
    | some spec =>
      rw [hm] at h1 h2
      simp only [Option.some.injEq] at h1 h2
      subst h1
      subst h2
      simp [CreationSpecsEqual, annLookup]
  · intro m1 m2 h
    unfold CreationSpecsEqual
    rw [h]
  · intro m1 m2 h
    unfold CreationSpecsEqual
    rw [h]
    cases annLookup m1 CreationSpecAnnotKey <;> rfl

/-- Witness for C10: both halves at concrete metas and a concrete
marshalling. -/
theorem creationSpecsEqual_after_set_witness :
    CreationSpecsEqual
        { annotations := some (fun k =>
            if k = CreationSpecAnnotKey then some "jsonbytes" else none) }
        { annotations := some (fun k =>
            if k = CreationSpecAnnotKey then some "jsonbytes" else none) } = true ∧
      CreationSpecsEqual { annotations := none } { annotations := none } = false :=
  ⟨by
    have hset :
        SetCreationSpecAnnot (fun _ : Nat => some "jsonbytes") (fun s => s)
            { annotations := none } 0 =
          some { annotations := some (fun k =>
            if k = CreationSpecAnnotKey then some "jsonbytes" else none) } := by
      unfold SetCreationSpecAnnot
      simp
    exact (creationSpecsEqual_after_set (fun _ : Nat => some "jsonbytes") (fun s => s)).1
      { annotations := none } { annotations := none } 0 _ _ hset hset,
    (creationSpecsEqual_after_set (fun _ : Nat => some "jsonbytes") (fun s => s)).2.1
      { annotations := none } { annotations := none } rfl⟩

/-- C3: on a non-closed Buffer with its three pipelines set, Close closes
playback, then network-buffer, then recorder; the first close error is
returned immediately, later pipelines are not closed, Destroy is not
invoked and the closed flag stays unset; Destroy and the flag are
reached exactly when all three closes succeed. -/
theorem buffer_close_short_circuit (a : Buffer) (p b r : Pipeline)
    (hp : a.pbkPipeline = some p) (hb : a.bufPipeline = some b)
    (hr : a.recPipeline = some r) (hopen : a.IsClosed = Except.ok false) :
    (∀ e, p.closeErr = some e →
      Buffer.Close a = Except.ok (a, some e, [CloseAction.closePbk])) ∧
    (∀ e, p.closeErr = none → b.closeErr = some e →
      Buffer.Close a = Except.ok
        ({ a with pbkPipeline := some (closedOf p) }, some e,
          [CloseAction.closePbk, CloseAction.closeBuf])) ∧
    (∀ e, p.closeErr = none → b.closeErr = none → r.closeErr = some e →
      Buffer.Close a = Except.ok
        ({ a with
            pbkPipeline := some (closedOf p)
            bufPipeline := some (closedOf b) }, some e,
          [CloseAction.closePbk, CloseAction.closeBuf, CloseAction.closeRec])) ∧
    (p.closeErr = none → b.closeErr = none → r.closeErr = none →
      Buffer.Close a = Except.ok
        ({ a with
            pbkPipeline := some (closedOf p)
            bufPipeline := some (closedOf b)
            recPipeline := some (closedOf r)
            closed := true
            devicesDestroyed := a.devicesDestroyed + 1 }, none,
          [CloseAction.closePbk, CloseAction.closeBuf, CloseAction.closeRec,
            CloseAction.destroyDevices])) := by
  obtain ⟨u, pbk, bufp, recp, ch, sr, cl, dd⟩ := a
  simp only at hp hb hr
  subst hp
  subst hb
  subst hr
  refine ⟨?_, ?_, ?_, ?_⟩
  · intro e he
    simp [Buffer.Close, hopen, optClose, pipelineClose, he]
  · intro e hpn he
    simp [Buffer.Close, hopen, optClose, pipelineClose, hpn, he, closedOf]
  · intro e hpn hbn he
    simp [Buffer.Close, hopen, optClose, pipelineClose, hpn, hbn, he, closedOf]
  · intro hpn hbn hrn
    simp [Buffer.Close, hopen, optClose, pipelineClose, hpn, hbn, hrn, closedOf]

/-- Witness for C3: a started buffer whose network-buffer pipeline fails
to close; playback is closed, the error propagates, recorder stays open
and devices are not destroyed. -/
theorem buffer_close_short_circuit_witness :
    Buffer.Close
        { userID := "u"
          pbkPipeline := some { closed := false, closeErr := none, waitErr := none }
          bufPipeline := some { closed := false, closeErr := some "bufboom", waitErr := none }
          recPipeline := some { closed := false, closeErr := none, waitErr := none }
          channels := 2
          sampleRate := 24000
          closed := false
          devicesDestroyed := 0 } =
      Except.ok
        ({ userID := "u"
           pbkPipeline := some { closed := true, closeErr := none, waitErr := none }
           bufPipeline := some { closed := false, closeErr := some "bufboom", waitErr := none }
           recPipeline := some { closed := false, closeErr := none, waitErr := none }
           channels := 2
           sampleRate := 24000
           closed := false
           devicesDestroyed := 0 }, some "bufboom",
          [CloseAction.closePbk, CloseAction.closeBuf]) :=
  (buffer_close_short_circuit
      { userID := "u"
        pbkPipeline := some { closed := false, closeErr := none, waitErr := none }
        bufPipeline := some { closed := false, closeErr := some "bufboom", waitErr := none }
        recPipeline := some { closed := false, closeErr := none, waitErr := none }
        channels := 2
        sampleRate := 24000
        closed := false
        devicesDestroyed := 0 }
      { closed := false, closeErr := none, waitErr := none }
      { closed := false, closeErr := some "bufboom", waitErr := none }
      { closed := false, closeErr := none, waitErr := none }
      rfl rfl rfl rfl).2.1 "bufboom" rfl rfl

/-- C4: once all three pipelines report closed and the Buffer closed flag
is set (the state a fully completed Close leaves), a second Close
returns no error, closes no pipeline and does not destroy devices
again. -/
theorem buffer_close_idempotent (a : Buffer) (p b r : Pipeline)
    (hp : a.pbkPipeline = some p) (hb : a.bufPipeline = some b)
    (hr : a.recPipeline = some r) (hpc : p.closed = true) (hbc : b.closed = true)
    (hrc : r.closed = true) (hc : a.closed = true) :
    Buffer.Close a = Except.ok (a, none, []) := by
  obtain ⟨u, pbk, bufp, recp, ch, sr, cl, dd⟩ := a
  simp only at hp hb hr hc
  subst hp
  subst hb
  subst hr
  subst hc
  simp [Buffer.Close, Buffer.IsClosed, optIsClosed, pipelineIsClosed, hpc, hbc, hrc]

/-- Witness for C4 on a concrete fully closed buffer. -/
theorem buffer_close_idempotent_witness :
    Buffer.Close
        { userID := "u"
          pbkPipeline := some { closed := true, closeErr := none, waitErr := none }
          bufPipeline := some { closed := true, closeErr := none, waitErr := none }
          recPipeline := some { closed := true, closeErr := none, waitErr := none }
          channels := 2
          sampleRate := 24000
          closed := true
          devicesDestroyed := 1 } =
      Except.ok
        ({ userID := "u"
           pbkPipeline := some { closed := true, closeErr := none, waitErr := none }
           bufPipeline := some { closed := true, closeErr := none, waitErr := none }
           recPipeline := some { closed := true, closeErr := none, waitErr := none }
           channels := 2
           sampleRate := 24000
           closed := true
           devicesDestroyed := 1 }, none, []) :=
  buffer_close_idempotent _
    { closed := true, closeErr := none, waitErr := none }
    { closed := true, closeErr := none, waitErr := none }
    { closed := true, closeErr := none, waitErr := none }
    rfl rfl rfl rfl rfl rfl rfl

/-- C5 counterexample: on a freshly constructed Buffer (Start never
invoked, all three pipeline fields nil) Close faults with a nil pointer
dereference inside the IsClosed guard, rather than completing. -/
theorem buffer_close_new_faults :
    Buffer.Close (NewBuffer "user") = Except.error Fault.nilDereference := rfl

/-- C5 amended: Close completes without fault from every state in which
the three pipeline fields are set (every state reached once Start has
built the pipelines); only the fresh pipeline-less state faults. -/
theorem buffer_close_safe_with_pipelines (a : Buffer) (p b r : Pipeline)
    (hp : a.pbkPipeline = some p) (hb : a.bufPipeline = some b)
    (hr : a.recPipeline = some r) :
    noFault (Buffer.Close a) = true := by
  obtain ⟨u, pbk, bufp, recp, ch, sr, cl, dd⟩ := a
  simp only at hp hb hr
  subst hp
  subst hb
  subst hr
  obtain ⟨pc, pce, pwe⟩ := p
  obtain ⟨bc, bce, bwe⟩ := b
  obtain ⟨rc, rce, rwe⟩ := r
  cases pc <;> cases bc <;> cases rc <;> cases cl <;>
    cases pce <;> cases bce <;> cases rce <;> rfl

/-- Witness for C5 amended, on a concrete started buffer. -/
theorem buffer_close_safe_with_pipelines_witness :
    noFault (Buffer.Close
      { userID := "u"
        pbkPipeline := some { closed := false, closeErr := none, waitErr := none }
        bufPipeline := some { closed := false, closeErr := none, waitErr := none }
        recPipeline := some { closed := false, closeErr := none, waitErr := none }
        channels := 2
        sampleRate := 24000
        closed := false
        devicesDestroyed := 0 }) = true :=
  buffer_close_safe_with_pipelines _
    { closed := false, closeErr := none, waitErr := none }
    { closed := false, closeErr := none, waitErr := none }
    { closed := false, closeErr := none, waitErr := none }
    rfl rfl rfl

/-- C6: on a started Buffer, Wait joins the playback, network-buffer and
recorder pipelines in that order; it returns none when all three exit
cleanly, and otherwise one error whose message joins the messages of the
failing pipelines, in pipeline order, with the " : " separator. -/
theorem buffer_wait_aggregates (a : Buffer) (p b r : Pipeline)
    (hp : a.pbkPipeline = some p) (hb : a.bufPipeline = some b)
    (hr : a.recPipeline = some r) :
    Buffer.Wait a = Except.ok
      (if ([p.waitErr, b.waitErr, r.waitErr].filterMap id) = [] then none
       else some (String.intercalate " : "
         ([p.waitErr, b.waitErr, r.waitErr].filterMap id))) := by
  obtain ⟨u, pbk, bufp, recp, ch, sr, cl, dd⟩ := a
  simp only at hp hb hr
  subst hp
  subst hb
  subst hr
  obtain ⟨pc, pce, pwe⟩ := p
  obtain ⟨bc, bce, bwe⟩ := b
  obtain ⟨rc, rce, rwe⟩ := r
  cases pwe <;> cases bwe <;> cases rwe <;>
    simp [Buffer.Wait, optWait, pipelineWait]

/-- Witness for C6: playback and recorder fail, network-buffer succeeds;
the two messages are joined with " : ". -/
theorem buffer_wait_aggregates_witness :
    Buffer.Wait
        { userID := "u"
          pbkPipeline := some { closed := false, closeErr := none, waitErr := some "pbk died" }
          bufPipeline := some { closed := false, closeErr := none, waitErr := none }
          recPipeline := some { closed := false, closeErr := none, waitErr := some "rec died" }
          channels := 2
          sampleRate := 24000
          closed := false
          devicesDestroyed := 0 } =
      Except.ok (some "pbk died : rec died") := by
  have h := buffer_wait_aggregates
    { userID := "u"
      pbkPipeline := some { closed := false, closeErr := none, waitErr := some "pbk died" }
      bufPipeline := some { closed := false, closeErr := none, waitErr := none }
      recPipeline := some { closed := false, closeErr := none, waitErr := some "rec died" }
      channels := 2
      sampleRate := 24000
      closed := false
      devicesDestroyed := 0 }
    { closed := false, closeErr := none, waitErr := some "pbk died" }
    { closed := false, closeErr := none, waitErr := none }
    { closed := false, closeErr := none, waitErr := some "rec died" }
    rfl rfl rfl
  simpa using h

/-- C7: provisioning runs sink, then source, then default-source, and the
error of the first failing step becomes the result of setupDevices; when
setupDevices fails, Start returns that error with the fresh Buffer
unchanged — its three pipeline fields still nil, no step performed, so
no pipeline was built or started. -/
theorem buffer_start_aborts_on_provisioning_failure (env : DeviceEnv)
    (penv : PipelineEnv) (u e : String) :
    ((env.addSink "kvdi" "kvdi-playback" = some e → setupDevices env u = some e) ∧
     (env.addSink "kvdi" "kvdi-playback" = none →
       env.addSource "virtmic" "kvdi-microphone" ("/run/user/" ++ u ++ "/pulse/mic.fifo")
         "s16le" 1 16000 = some e →
       setupDevices env u = some e) ∧
     (env.addSink "kvdi" "kvdi-playback" = none →
       env.addSource "virtmic" "kvdi-microphone" ("/run/user/" ++ u ++ "/pulse/mic.fifo")
         "s16le" 1 16000 = none →
       env.setDefaultSource "virtmic" = some e →
       setupDevices env u = some e)) ∧
    (setupDevices env u = some e →
      Buffer.Start env penv (NewBuffer u) = (NewBuffer u, some e, []) ∧
      (NewBuffer u).pbkPipeline = none ∧ (NewBuffer u).bufPipeline = none ∧
      (NewBuffer u).recPipeline = none) := by
  refine ⟨⟨?_, ?_, ?_⟩, ?_⟩
  · intro h
    simp [setupDevices, h]
  · intro h1 h2
    simp [setupDevices, h1, h2]
  · intro h1 h2 h3
    simp [setupDevices, h1, h2, h3]
  · intro h
    refine ⟨?_, rfl, rfl, rfl⟩
    simp [Buffer.Start, NewBuffer, h]

/-- Witness for C7: a device daemon that rejects the sink; Start returns
the rejection and the buffer still has no pipelines. -/
theorem buffer_start_aborts_on_provisioning_failure_witness :
    Buffer.Start
        { addSink := fun _ _ => some "sink rejected"
          addSource := fun _ _ _ _ _ _ => none
          setDefaultSource := fun _ => none }
        { builtPbk := { closed := false, closeErr := none, waitErr := none }
          builtBuf := { closed := false, closeErr := none, waitErr := none }
          builtRec := { closed := false, closeErr := none, waitErr := none }
          pbkStartErr := none
          bufStartErr := none }
        (NewBuffer "u") =
      (NewBuffer "u", some "sink rejected", []) :=
  ((buffer_start_aborts_on_provisioning_failure
      { addSink := fun _ _ => some "sink rejected"
        addSource := fun _ _ _ _ _ _ => none
        setDefaultSource := fun _ => none }
      { builtPbk := { closed := false, closeErr := none, waitErr := none }
        builtBuf := { closed := false, closeErr := none, waitErr := none }
        builtRec := { closed := false, closeErr := none, waitErr := none }
        pbkStartErr := none
        bufStartErr := none }
      "u" "sink rejected").2 rfl).1

/-- C8: on a started Buffer, IsClosed answers true exactly when the
playback, recorder and network-buffer pipelines all report closed and
the Buffer closed flag is set, and answers false whenever any of the
four conditions is unmet. -/
theorem buffer_isClosed_iff (a : Buffer) (p b r : Pipeline)
    (hp : a.pbkPipeline = some p) (hb : a.bufPipeline = some b)
    (hr : a.recPipeline = some r) :
    (a.IsClosed = Except.ok true ↔
      (p.closed = true ∧ r.closed = true ∧ b.closed = true ∧ a.closed = true)) ∧
    (a.IsClosed = Except.ok false ↔
      ¬(p.closed = true ∧ r.closed = true ∧ b.closed = true ∧ a.closed = true)) := by
  obtain ⟨u, pbk, bufp, recp, ch, sr, cl, dd⟩ := a
  simp only at hp hb hr
  subst hp
  subst hb
  subst hr
  obtain ⟨pc, pce, pwe⟩ := p
  obtain ⟨bc, bce, bwe⟩ := b
  obtain ⟨rc, rce, rwe⟩ := r
  cases pc <;> cases bc <;> cases rc <;> cases cl <;>
    simp [Buffer.IsClosed, optIsClosed, pipelineIsClosed]

/-- Witness for C8: a buffer with every pipeline closed but the Buffer
flag still unset is not closed. -/
theorem buffer_isClosed_iff_witness :
    Buffer.IsClosed
        { userID := "u"
          pbkPipeline := some { closed := true, closeErr := none, waitErr := none }
          bufPipeline := some { closed := true, closeErr := none, waitErr := none }
          recPipeline := some { closed := true, closeErr := none, waitErr := none }
          channels := 2
          sampleRate := 24000
          closed := false
          devicesDestroyed := 0 } = Except.ok false :=
  ((buffer_isClosed_iff
      { userID := "u"
        pbkPipeline := some { closed := true, closeErr := none, waitErr := none }
        bufPipeline := some { closed := true, closeErr := none, waitErr := none }
        recPipeline := some { closed := true, closeErr := none, waitErr := none }
        channels := 2
        sampleRate := 24000
        closed := false
        devicesDestroyed := 0 }
      { closed := true, closeErr := none, waitErr := none }
      { closed := true, closeErr := none, waitErr := none }
      { closed := true, closeErr := none, waitErr := none }
      rfl rfl rfl).2).mpr (by simp)

end Kvdi
